import Mathlib

/-!
Verification of the order status engine of `src/app.py` (routes
`get_order_status` and `update_order_status`).

The persisted `orders` table is modelled as a list of records; the two Flask
handlers become state-passing functions returning a structured result together
with the table after the call.  The clock (`ist_now`) is passed in as a
parameter `now`, and the JSON body fields `status` and `notes` are passed as
`Option String` (`none` when the field is absent, mirroring `data.get`).
-/

namespace AdminApp

/-- A row of the `orders` table.  The engine reads and rewrites only `status`,
`delivery_date` and `notes`; the remaining columns (`order_id`,
`total_amount`, `order_date`, `payment_mode`) stand for the columns the engine
never touches. -/
structure OrderRec where
  order_id : Nat
  status : String
  total_amount : Int
  order_date : Nat
  delivery_date : Option Nat
  notes : String
  payment_mode : String
  deriving Repr, DecidableEq

/-- `SELECT status FROM orders WHERE order_id = %s` followed by `fetchone()`:
the first row with the given identifier, if any. -/
def findOrder (db : List OrderRec) (oid : Nat) : Option OrderRec :=
  db.find? (fun o => o.order_id == oid)

/-- The six-member status enumeration of the data model. -/
def statusEnum : List String :=
  ["pending", "confirmed", "assigned", "out_for_delivery", "delivered", "cancelled"]

/-- The transition table, written verbatim (as `status_flow` in
`get_order_status` and, identically, as `allowed_transitions` in
`update_order_status`).  A Python dict lookup returns `none` on a key outside
the table. -/
def status_flow (s : String) : Option (List String) :=
  if s = "pending" then some ["confirmed", "cancelled"]
  else if s = "confirmed" then some ["assigned", "cancelled"]
  else if s = "assigned" then some ["out_for_delivery", "cancelled"]
  else if s = "out_for_delivery" then some ["delivered", "cancelled"]
  else if s = "delivered" then some []
  else if s = "cancelled" then some []
  else none

/-- `status_flow.get(current_status, [])`: the allowed next statuses, with the
empty list as default for a status outside the table. -/
def statusFlowGet (s : String) : List String :=
  (status_flow s).getD []

/-- Result of the `GET /admin/api/order/<id>/status` handler. -/
inductive GetStatusResult where
  | notFound
  | ok (current_status : String) (available_statuses : List String)
      (all_statuses : List String)
  deriving Repr, DecidableEq

/-- HTTP code attached to each `get_order_status` outcome in the source. -/
def getStatusHttpCode : GetStatusResult → Nat
  | .notFound => 404
  | .ok _ _ _ => 200

/-- The `get_order_status` route: look the order up, report its current status
together with the allowed next statuses from the table.  The handler only runs
a `SELECT`, so the table is returned unchanged. -/
def get_order_status (db : List OrderRec) (oid : Nat) :
    GetStatusResult × List OrderRec :=
  match findOrder db oid with
  | none => (.notFound, db)
  | some order =>
      let current_status := order.status
      let available_statuses := statusFlowGet current_status
      let all_statuses := current_status :: available_statuses
      (.ok current_status available_statuses all_statuses, db)

/-- Result of the `POST /admin/api/order/<id>/status/update` handler. -/
inductive UpdateResult where
  | missingInput
  | notFound
  | invalidTransition (message : String)
  | ok (message : String) (new_status : String)
  deriving Repr, DecidableEq

/-- HTTP code attached to each `update_order_status` outcome in the source. -/
def updateHttpCode : UpdateResult → Nat
  | .missingInput => 400
  | .notFound => 404
  | .invalidTransition _ => 400
  | .ok _ _ => 200

/-- Whether the result carries `success: true`. -/
def UpdateResult.isSuccess : UpdateResult → Bool
  | .ok _ _ => true
  | _ => false

/-- The `update_data` dictionary applied to a row: `status` is always
rewritten, `delivery_date` is stamped with the clock exactly when the new
status is `delivered`, and `notes` is overwritten exactly when the supplied
note is truthy (non-empty). -/
def applyUpdate (new_status notes : String) (now : Nat) (o : OrderRec) : OrderRec :=
  { o with
    status := new_status
    delivery_date := if new_status = "delivered" then some now else o.delivery_date
    notes := if notes ≠ "" then notes else o.notes }

/-- The `update_order_status` route.  `statusOpt` and `notesOpt` are
`data.get('status')` and `data.get('notes', '')`; Python truthiness makes the
absent field and the empty string indistinguishable from there on.  The guard
order mirrors the source: required-field check, then lookup, then transition
validation, then the single `UPDATE ... WHERE order_id = %s`. -/
def update_order_status (db : List OrderRec) (oid : Nat)
    (statusOpt notesOpt : Option String) (now : Nat) :
    UpdateResult × List OrderRec :=
  let new_status := statusOpt.getD ""
  let notes := notesOpt.getD ""
  if new_status = "" then
    (.missingInput, db)
  else
    match findOrder db oid with
    | none => (.notFound, db)
    | some order =>
        let current_status := order.status
        if new_status ∈ statusFlowGet current_status then
          let updated := db.map fun o =>
            if o.order_id == oid then applyUpdate new_status notes now o else o
          (.ok ("Order status updated to " ++ new_status) new_status, updated)
        else
          (.invalidTransition
            ("Invalid status transition from " ++ current_status ++ " to " ++ new_status),
            db)

/-- The columns of an order row that the engine never writes: every column
other than `status`, `delivery_date` and `notes`. -/
def frameFields (o : OrderRec) : Nat × Int × Nat × String :=
  (o.order_id, o.total_amount, o.order_date, o.payment_mode)

/-! ### Helper lemmas -/

/-- Every status appearing in an allowed-next list of the table is a non-empty
string, so it passes the required-field truthiness check. -/
theorem ne_empty_of_mem_statusFlowGet {s r : String} (h : r ∈ statusFlowGet s) :
    r ≠ "" := by
  intro hr
  subst hr
  unfold statusFlowGet status_flow at h
  split_ifs at h <;> simp_all

/-- Members of the status enumeration are non-empty strings. -/
theorem ne_empty_of_mem_statusEnum {r : String} (h : r ∈ statusEnum) : r ≠ "" := by
  intro hr
  subst hr
  simp [statusEnum] at h

/-- A status outside the enumeration is outside the table, so the dict lookup
falls back to the empty list. -/
theorem statusFlowGet_eq_nil_of_not_mem_enum {s : String} (h : s ∉ statusEnum) :
    statusFlowGet s = [] := by
  unfold statusFlowGet status_flow
  split_ifs with h1 h2 h3 h4 h5 h6
  all_goals first
    | rfl
    | (exfalso; apply h; subst_vars; simp [statusEnum])

/-- `find?` commutes with a `map` whose function leaves the search predicate
unchanged. -/
theorem find?_map_of_pred {α : Type} (g : α → α) (p : α → Bool)
    (hp : ∀ a, p (g a) = p a) (l : List α) :
    (l.map g).find? p = (l.find? p).map g := by
  rw [List.find?_map]
  have : p ∘ g = p := funext hp
  rw [this]

/-- Looking an order up after the row update: the update rewrites exactly the
rows with the target identifier and leaves every `order_id` alone, so the
lookup finds the updated image of the originally found row. -/
theorem findOrder_map_update (db : List OrderRec) (oid : Nat)
    (f : OrderRec → OrderRec) (hf : ∀ o, (f o).order_id = o.order_id) :
    findOrder (db.map fun o => if o.order_id == oid then f o else o) oid
      = (findOrder db oid).map (fun o => if o.order_id == oid then f o else o) := by
  unfold findOrder
  apply find?_map_of_pred
  intro o
  by_cases h : o.order_id == oid <;> simp [h, hf]

/-- A `map` whose function preserves a projection of every element leaves the
projected list unchanged. -/
theorem map_proj_map_of_preserve {α β : Type} (g : α → α) (proj : α → β)
    (hp : ∀ a, proj (g a) = proj a) (l : List α) :
    (l.map g).map proj = l.map proj := by
  rw [List.map_map]
  exact List.map_congr_left (fun a _ => hp a)

/-- Branch equation: a falsy `status` field short-circuits to the
missing-input error. -/
theorem update_eq_missingInput (db : List OrderRec) (oid : Nat)
    (statusOpt notesOpt : Option String) (now : Nat)
    (h : statusOpt.getD "" = "") :
    update_order_status db oid statusOpt notesOpt now = (.missingInput, db) := by
  unfold update_order_status
  simp [h]

/-- Branch equation: an unresolved identifier yields the not-found error. -/
theorem update_eq_notFound (db : List OrderRec) (oid : Nat) (req : String)
    (notesOpt : Option String) (now : Nat)
    (hne : req ≠ "") (hord : findOrder db oid = none) :
    update_order_status db oid (some req) notesOpt now = (.notFound, db) := by
  unfold update_order_status
  simp only [Option.getD_some, if_neg hne, hord]

/-- Branch equation: an allowed transition commits the row update. -/
theorem update_eq_ok (db : List OrderRec) (oid : Nat) (order : OrderRec)
    (req : String) (notesOpt : Option String) (now : Nat)
    (hne : req ≠ "") (hord : findOrder db oid = some order)
    (hmem : req ∈ statusFlowGet order.status) :
    update_order_status db oid (some req) notesOpt now
      = (.ok ("Order status updated to " ++ req) req,
         db.map fun o =>
           if o.order_id == oid then applyUpdate req (notesOpt.getD "") now o else o) := by
  unfold update_order_status
  simp only [Option.getD_some, if_neg hne, hord, if_pos hmem]

/-- Branch equation: a pair outside the table yields the invalid-transition
error and no write. -/
theorem update_eq_invalidTransition (db : List OrderRec) (oid : Nat)
    (order : OrderRec) (req : String) (notesOpt : Option String) (now : Nat)
    (hne : req ≠ "") (hord : findOrder db oid = some order)
    (hmem : req ∉ statusFlowGet order.status) :
    update_order_status db oid (some req) notesOpt now
      = (.invalidTransition
          ("Invalid status transition from " ++ order.status ++ " to " ++ req), db) := by
  unfold update_order_status
  simp only [Option.getD_some, if_neg hne, hord, if_neg hmem]

/-! ### Claim theorems -/

/-- C1: for every stored order whose status is in the enumeration and every
requested status in the transition table's allowed-next set for that status,
`update_order_status` succeeds, the success result carries the requested
status, and the persisted status of the order afterwards equals the requested
status. -/
theorem update_valid_transition_succeeds
    (db : List OrderRec) (oid : Nat) (order : OrderRec) (notesOpt : Option String)
    (now : Nat) (req : String)
    (hord : findOrder db oid = some order)
    (henum : order.status ∈ statusEnum)
    (hreq : req ∈ statusFlowGet order.status) :
    (update_order_status db oid (some req) notesOpt now).1
      = .ok ("Order status updated to " ++ req) req
    ∧ (findOrder (update_order_status db oid (some req) notesOpt now).2 oid).map
        OrderRec.status = some req := by
  have hne : req ≠ "" := ne_empty_of_mem_statusFlowGet hreq
  have hord' : db.find? (fun o => o.order_id == oid) = some order := hord
  have hkey : (order.order_id == oid) = true := by
    have h := List.find?_some hord'
    simpa using h
  have hstep : update_order_status db oid (some req) notesOpt now
      = (.ok ("Order status updated to " ++ req) req,
         db.map fun o =>
           if o.order_id == oid then applyUpdate req (notesOpt.getD "") now o else o) := by
    unfold update_order_status
    simp only [Option.getD_some, if_neg hne, hord, if_pos hreq]
  refine ⟨by rw [hstep], ?_⟩
  rw [hstep]
  simp only []
  rw [findOrder_map_update db oid (applyUpdate req (notesOpt.getD "") now) (fun o => rfl),
    hord]
  have hkey2 : order.order_id = oid := by simpa using hkey
  simp [hkey2, applyUpdate]

/-- Witness for C1: a pending order moved to confirmed. -/
theorem update_valid_transition_succeeds_witness :
    (update_order_status [⟨7, "pending", 100, 5, none, "", "cod"⟩] 7
        (some "confirmed") none 42).1
      = .ok ("Order status updated to " ++ "confirmed") "confirmed"
    ∧ (findOrder (update_order_status [⟨7, "pending", 100, 5, none, "", "cod"⟩] 7
        (some "confirmed") none 42).2 7).map OrderRec.status = some "confirmed" :=
  update_valid_transition_succeeds _ 7 ⟨7, "pending", 100, 5, none, "", "cod"⟩
    none 42 "confirmed" rfl (by decide) (by decide)

/-- C2: for every (current, requested) pair outside the transition table —
self-transitions and transitions out of the terminal states included —
`update_order_status` fails with the invalid-transition error whose message
names both the current and the requested status, and the stored table is
returned unchanged. -/
theorem update_invalid_transition_rejected
    (db : List OrderRec) (oid : Nat) (order : OrderRec) (notesOpt : Option String)
    (now : Nat) (req : String)
    (hord : findOrder db oid = some order)
    (hreqEnum : req ∈ statusEnum)
    (hinv : req ∉ statusFlowGet order.status) :
    update_order_status db oid (some req) notesOpt now
      = (.invalidTransition
          ("Invalid status transition from " ++ order.status ++ " to " ++ req), db) := by
  have hne : req ≠ "" := ne_empty_of_mem_statusEnum hreqEnum
  unfold update_order_status
  simp only [Option.getD_some, if_neg hne, hord, if_neg hinv]

/-- Witness for C2: skipping from pending straight to delivered is refused. -/
theorem update_invalid_transition_rejected_witness :
    update_order_status [⟨7, "pending", 100, 5, none, "", "cod"⟩] 7
        (some "delivered") none 42
      = (.invalidTransition
          ("Invalid status transition from " ++ "pending" ++ " to " ++ "delivered"),
         [⟨7, "pending", 100, 5, none, "", "cod"⟩]) :=
  update_invalid_transition_rejected _ 7 ⟨7, "pending", 100, 5, none, "", "cod"⟩
    none 42 "delivered" rfl (by decide) (by decide)

/-- C3: a successful `update_order_status` to `delivered` stamps the stored
`delivery_date` with the clock value of the call (hence non-null), and an
update with any other requested status never modifies any `delivery_date`. -/
theorem delivered_stamps_delivery_date
    (db : List OrderRec) (oid : Nat) (notesOpt : Option String) (now : Nat) :
    ((update_order_status db oid (some "delivered") notesOpt now).1.isSuccess = true →
      (findOrder (update_order_status db oid (some "delivered") notesOpt now).2 oid).map
        OrderRec.delivery_date = some (some now))
    ∧ ∀ req : String, req ≠ "delivered" →
        (update_order_status db oid (some req) notesOpt now).2.map OrderRec.delivery_date
          = db.map OrderRec.delivery_date := by
  have hd : ("delivered" : String) ≠ "" := by decide
  constructor
  · intro hsucc
    cases hord : findOrder db oid with
    | none =>
        rw [update_eq_notFound db oid "delivered" notesOpt now hd hord] at hsucc
        simp [UpdateResult.isSuccess] at hsucc
    | some order =>
        by_cases hmem : ("delivered" : String) ∈ statusFlowGet order.status
        · rw [update_eq_ok db oid order "delivered" notesOpt now hd hord hmem]
          simp only []
          rw [findOrder_map_update db oid
              (applyUpdate "delivered" (notesOpt.getD "") now) (fun o => rfl), hord]
          have hkey : order.order_id = oid := by
            have h := List.find?_some
              (show db.find? (fun o => o.order_id == oid) = some order from hord)
            simpa using h
          simp [hkey, applyUpdate]
        · rw [update_eq_invalidTransition db oid order "delivered" notesOpt now
              hd hord hmem] at hsucc
          simp [UpdateResult.isSuccess] at hsucc
  · intro req hreq
    by_cases hne : req = ""
    · rw [update_eq_missingInput db oid (some req) notesOpt now (by simp [hne])]
    · cases hord : findOrder db oid with
      | none => rw [update_eq_notFound db oid req notesOpt now hne hord]
      | some order =>
          by_cases hmem : req ∈ statusFlowGet order.status
          · rw [update_eq_ok db oid order req notesOpt now hne hord hmem]
            simp only []
            apply map_proj_map_of_preserve
            intro o
            by_cases h : (o.order_id == oid) = true <;>
              simp [h, applyUpdate, hreq]
          · rw [update_eq_invalidTransition db oid order req notesOpt now hne hord hmem]

/-- Witness for C3: delivering an out-for-delivery order stamps the clock
value; a non-delivered update leaves delivery dates alone. -/
theorem delivered_stamps_delivery_date_witness :
    (findOrder (update_order_status [⟨7, "out_for_delivery", 100, 5, none, "", "cod"⟩] 7
        (some "delivered") none 42).2 7).map OrderRec.delivery_date = some (some 42)
    ∧ (update_order_status [⟨7, "out_for_delivery", 100, 5, none, "", "cod"⟩] 7
        (some "confirmed") none 42).2.map OrderRec.delivery_date
      = [⟨7, "out_for_delivery", 100, 5, none, "", "cod"⟩].map OrderRec.delivery_date :=
  ⟨(delivered_stamps_delivery_date
      [⟨7, "out_for_delivery", 100, 5, none, "", "cod"⟩] 7 none 42).1 (by decide),
   (delivered_stamps_delivery_date
      [⟨7, "out_for_delivery", 100, 5, none, "", "cod"⟩] 7 none 42).2 "confirmed"
      (by decide)⟩

/-- C4: for every existing order the query operation reports the current
status together with exactly the allowed-next set the table maps that status
to, and for a terminal status (delivered or cancelled) that set is empty. -/
theorem get_status_reports_allowed_transitions
    (db : List OrderRec) (oid : Nat) (order : OrderRec)
    (hord : findOrder db oid = some order) :
    (get_order_status db oid).1
      = .ok order.status (statusFlowGet order.status)
          (order.status :: statusFlowGet order.status)
    ∧ ((order.status = "delivered" ∨ order.status = "cancelled") →
        statusFlowGet order.status = []) := by
  constructor
  · unfold get_order_status
    simp only [hord]
  · rintro (h | h) <;> rw [h] <;> rfl

/-- Witness for C4: a delivered order reports an empty allowed-set. -/
theorem get_status_reports_allowed_transitions_witness :
    (get_order_status [⟨7, "delivered", 100, 5, some 9, "", "cod"⟩] 7).1
      = .ok "delivered" (statusFlowGet "delivered")
          ("delivered" :: statusFlowGet "delivered")
    ∧ statusFlowGet "delivered" = [] :=
  ⟨(get_status_reports_allowed_transitions
      [⟨7, "delivered", 100, 5, some 9, "", "cod"⟩] 7
      ⟨7, "delivered", 100, 5, some 9, "", "cod"⟩ rfl).1,
   (get_status_reports_allowed_transitions
      [⟨7, "delivered", 100, 5, some 9, "", "cod"⟩] 7
      ⟨7, "delivered", 100, 5, some 9, "", "cod"⟩ rfl).2 (Or.inl rfl)⟩

/-- C5: an identifier that resolves to no stored order makes both operations
fail with the not-found error, both mapped to HTTP 404, and the update
performs no write. -/
theorem unknown_order_not_found
    (db : List OrderRec) (oid : Nat) (req : String) (notesOpt : Option String)
    (now : Nat)
    (hord : findOrder db oid = none) (hne : req ≠ "") :
    (get_order_status db oid).1 = .notFound
    ∧ getStatusHttpCode (get_order_status db oid).1 = 404
    ∧ update_order_status db oid (some req) notesOpt now = (.notFound, db)
    ∧ updateHttpCode (update_order_status db oid (some req) notesOpt now).1 = 404 := by
  have h1 : (get_order_status db oid).1 = .notFound := by
    unfold get_order_status
    simp only [hord]
  have h2 := update_eq_notFound db oid req notesOpt now hne hord
  exact ⟨h1, by rw [h1]; rfl, h2, by rw [h2]; rfl⟩

/-- Witness for C5: order 1 in an empty table. -/
theorem unknown_order_not_found_witness :
    (get_order_status [] 1).1 = .notFound
    ∧ getStatusHttpCode (get_order_status [] 1).1 = 404
    ∧ update_order_status [] 1 (some "confirmed") none 42 = (.notFound, [])
    ∧ updateHttpCode (update_order_status [] 1 (some "confirmed") none 42).1 = 404 :=
  unknown_order_not_found [] 1 "confirmed" none 42 rfl (by decide)

/-- C6: omitting the target status makes the update fail with the
missing-input error, mapped to HTTP 400, and the stored table is returned
untouched — for every table contents, so the outcome involves no read of the
order and no write. -/
theorem missing_status_no_storage_access
    (db : List OrderRec) (oid : Nat) (notesOpt : Option String) (now : Nat) :
    update_order_status db oid none notesOpt now = (.missingInput, db)
    ∧ updateHttpCode (update_order_status db oid none notesOpt now).1 = 400 := by
  have h := update_eq_missingInput db oid none notesOpt now rfl
  exact ⟨h, by rw [h]; rfl⟩

/-- C7: for every call (successful or not), every column of every row other
than `status`, `delivery_date` and `notes` is unchanged by the update
operation, and the query operation writes nothing. -/
theorem engine_touches_only_engine_fields
    (db : List OrderRec) (oid : Nat) (statusOpt notesOpt : Option String)
    (now : Nat) :
    (update_order_status db oid statusOpt notesOpt now).2.map frameFields
      = db.map frameFields
    ∧ (get_order_status db oid).2 = db := by
  constructor
  · by_cases hne0 : statusOpt.getD "" = ""
    · rw [update_eq_missingInput db oid statusOpt notesOpt now hne0]
    · obtain ⟨req, hreq⟩ : ∃ req, statusOpt = some req := by
        cases statusOpt with
        | none => simp at hne0
        | some r => exact ⟨r, rfl⟩
      subst hreq
      have hne : req ≠ "" := by simpa using hne0
      cases hord : findOrder db oid with
      | none => rw [update_eq_notFound db oid req notesOpt now hne hord]
      | some order =>
          by_cases hmem : req ∈ statusFlowGet order.status
          · rw [update_eq_ok db oid order req notesOpt now hne hord hmem]
            simp only []
            apply map_proj_map_of_preserve
            intro o
            by_cases h : (o.order_id == oid) = true <;>
              simp [h, applyUpdate, frameFields]
          · rw [update_eq_invalidTransition db oid order req notesOpt now hne hord hmem]
  · unfold get_order_status
    cases hord : findOrder db oid <;> simp only [hord]

/-- C8 counterexample: a supplied empty note does not overwrite.  On a valid
pending-to-confirmed update with the note field supplied as the empty string,
the call succeeds but the stored notes stay `old` — not the supplied note. -/
theorem note_supplied_overwrites_cex :
    (update_order_status [⟨7, "pending", 100, 5, none, "old", "cod"⟩] 7
        (some "confirmed") (some "") 42).1.isSuccess = true
    ∧ ¬ ((findOrder (update_order_status [⟨7, "pending", 100, 5, none, "old", "cod"⟩] 7
        (some "confirmed") (some "") 42).2 7).map OrderRec.notes = some "") := by
  decide

/-- C8 (amended): on a successful update, a supplied non-empty note
overwrites the stored notes field; when no note or an empty note was
supplied, the notes field is unchanged. -/
theorem note_supplied_overwrites
    (db : List OrderRec) (oid : Nat) (order : OrderRec) (req : String)
    (notesOpt : Option String) (now : Nat)
    (hord : findOrder db oid = some order)
    (hok : (update_order_status db oid (some req) notesOpt now).1.isSuccess = true) :
    (∀ note : String, notesOpt = some note → note ≠ "" →
      (findOrder (update_order_status db oid (some req) notesOpt now).2 oid).map
        OrderRec.notes = some note)
    ∧ ((notesOpt = none ∨ notesOpt = some "") →
      (findOrder (update_order_status db oid (some req) notesOpt now).2 oid).map
        OrderRec.notes = some order.notes) := by
  have hne : req ≠ "" := by
    intro h
    rw [update_eq_missingInput db oid (some req) notesOpt now (by simp [h])] at hok
    simp [UpdateResult.isSuccess] at hok
  have hmem : req ∈ statusFlowGet order.status := by
    by_contra hmem
    rw [update_eq_invalidTransition db oid order req notesOpt now hne hord hmem] at hok
    simp [UpdateResult.isSuccess] at hok
  have hkey : order.order_id = oid := by
    have h := List.find?_some
      (show db.find? (fun o => o.order_id == oid) = some order from hord)
    simpa using h
  have hfound : findOrder (update_order_status db oid (some req) notesOpt now).2 oid
      = some (applyUpdate req (notesOpt.getD "") now order) := by
    rw [update_eq_ok db oid order req notesOpt now hne hord hmem]
    simp only []
    rw [findOrder_map_update db oid (applyUpdate req (notesOpt.getD "") now)
        (fun o => rfl), hord]
    simp [hkey]
  constructor
  · intro note hnote hnn
    subst hnote
    rw [hfound]
    simp [applyUpdate, hnn]
  · rintro (h | h) <;> subst h <;> rw [hfound] <;> simp [applyUpdate]

/-- Witness for C8 (amended): a non-empty note overwrites `old`; an absent
note leaves `old` stored. -/
theorem note_supplied_overwrites_witness :
    (findOrder (update_order_status [⟨7, "pending", 100, 5, none, "old", "cod"⟩] 7
        (some "confirmed") (some "note") 42).2 7).map OrderRec.notes = some "note"
    ∧ (findOrder (update_order_status [⟨7, "pending", 100, 5, none, "old", "cod"⟩] 7
        (some "confirmed") none 42).2 7).map OrderRec.notes = some "old" :=
  ⟨(note_supplied_overwrites [⟨7, "pending", 100, 5, none, "old", "cod"⟩] 7
      ⟨7, "pending", 100, 5, none, "old", "cod"⟩ "confirmed" (some "note") 42
      rfl (by decide)).1 "note" rfl (by decide),
   (note_supplied_overwrites [⟨7, "pending", 100, 5, none, "old", "cod"⟩] 7
      ⟨7, "pending", 100, 5, none, "old", "cod"⟩ "confirmed" none 42
      rfl (by decide)).2 (Or.inl rfl)⟩

/-- C9: repeating an update with the same invalid target leaves the stored
table unchanged after both calls and returns the same invalid-transition
error (same kind, even the same message) both times. -/
theorem repeated_invalid_update_idempotent
    (db : List OrderRec) (oid : Nat) (order : OrderRec) (req : String)
    (notesOpt : Option String) (now now2 : Nat)
    (hord : findOrder db oid = some order)
    (hreqEnum : req ∈ statusEnum)
    (hinv : req ∉ statusFlowGet order.status) :
    update_order_status db oid (some req) notesOpt now
      = (.invalidTransition
          ("Invalid status transition from " ++ order.status ++ " to " ++ req), db)
    ∧ update_order_status (update_order_status db oid (some req) notesOpt now).2 oid
        (some req) notesOpt now2
      = (.invalidTransition
          ("Invalid status transition from " ++ order.status ++ " to " ++ req), db) := by
  have hne := ne_empty_of_mem_statusEnum hreqEnum
  have h1 := update_eq_invalidTransition db oid order req notesOpt now hne hord hinv
  refine ⟨h1, ?_⟩
  rw [h1]
  exact update_eq_invalidTransition db oid order req notesOpt now2 hne hord hinv

/-- Witness for C9: asking a delivered order to become delivered again fails
identically twice. -/
theorem repeated_invalid_update_idempotent_witness :
    update_order_status [⟨7, "delivered", 100, 5, some 9, "", "cod"⟩] 7
        (some "delivered") none 42
      = (.invalidTransition
          ("Invalid status transition from " ++ "delivered" ++ " to " ++ "delivered"),
         [⟨7, "delivered", 100, 5, some 9, "", "cod"⟩])
    ∧ update_order_status
        (update_order_status [⟨7, "delivered", 100, 5, some 9, "", "cod"⟩] 7
          (some "delivered") none 42).2 7 (some "delivered") none 43
      = (.invalidTransition
          ("Invalid status transition from " ++ "delivered" ++ " to " ++ "delivered"),
         [⟨7, "delivered", 100, 5, some 9, "", "cod"⟩]) :=
  repeated_invalid_update_idempotent [⟨7, "delivered", 100, 5, some 9, "", "cod"⟩] 7
    ⟨7, "delivered", 100, 5, some 9, "", "cod"⟩ "delivered" none 42 43
    rfl (by decide) (by decide)

/-- C10: an existing order whose stored status lies outside the enumeration is
treated as terminal — the query operation reports an empty allowed-set and the
update operation rejects every requested status with the invalid-transition
error, leaving the table unchanged. -/
theorem unknown_stored_status_terminal
    (db : List OrderRec) (oid : Nat) (order : OrderRec) (req : String)
    (notesOpt : Option String) (now : Nat)
    (hord : findOrder db oid = some order)
    (henum : order.status ∉ statusEnum)
    (hne : req ≠ "") :
    (get_order_status db oid).1 = .ok order.status [] [order.status]
    ∧ update_order_status db oid (some req) notesOpt now
      = (.invalidTransition
          ("Invalid status transition from " ++ order.status ++ " to " ++ req), db) := by
  have hflow : statusFlowGet order.status = [] :=
    statusFlowGet_eq_nil_of_not_mem_enum henum
  constructor
  · unfold get_order_status
    simp only [hord, hflow]
  · exact update_eq_invalidTransition db oid order req notesOpt now hne hord
      (by simp [hflow])

/-- Witness for C10: a corrupted stored status is terminal for both
operations. -/
theorem unknown_stored_status_terminal_witness :
    (get_order_status [⟨7, "corrupted", 100, 5, none, "", "cod"⟩] 7).1
      = .ok "corrupted" [] ["corrupted"]
    ∧ update_order_status [⟨7, "corrupted", 100, 5, none, "", "cod"⟩] 7
        (some "confirmed") none 42
      = (.invalidTransition
          ("Invalid status transition from " ++ "corrupted" ++ " to " ++ "confirmed"),
         [⟨7, "corrupted", 100, 5, none, "", "cod"⟩]) :=
  unknown_stored_status_terminal [⟨7, "corrupted", 100, 5, none, "", "cod"⟩] 7
    ⟨7, "corrupted", 100, 5, none, "", "cod"⟩ "confirmed" none 42
    rfl (by decide) (by decide)

end AdminApp
